import Mathlib

/-!
Shallow embedding of the AgentHub Smart Content Retrieval Engine
(`src/agents/web_agent/tools/web_fetch2.py` and
`src/tools/webtools/web_fetch.py`), with theorems settling the
spec claims about URL safety validation, probe classification,
document conversion cleanup, caching and pagination.

Machine-level conventions: Python `str` is Lean `String` (both count
Unicode code points), Python `int` is Lean `Int`, Python exceptions are
an explicit `Attempt` sum, network and filesystem effects are oracles
threaded explicitly.
-/

set_option autoImplicit false

namespace AgentHub

/-! ## Python string primitives used by the source -/

/-- Python `str.lower()` restricted to ASCII case folding (the source only
compares ASCII MIME strings and URL suffixes). -/
def pyLower (s : String) : String := String.mk (s.data.map Char.toLower)

/-- Python `s.split(sep)[0]`: the characters before the first occurrence of
the separator character. -/
def pySplitHead (sep : Char) (s : String) : String :=
  String.mk (s.data.takeWhile (fun c => !(c == sep)))

/-- Python `s.endswith(suf)`. -/
def pyEndsWith (s suf : String) : Bool := suf.data.isSuffixOf s.data

/-- Python whitespace characters recognised by `str.strip()`. -/
def py_isspace (c : Char) : Bool :=
  c == ' ' || c == '\t' || c == '\n' || c == '\r' || c == '\x0b' || c == '\x0c'

/-- Python `str.strip()`. -/
def pyStrip (s : String) : String :=
  String.mk (((s.data.dropWhile py_isspace).reverse.dropWhile py_isspace).reverse)

/-- Normalise one Python slice endpoint: a negative index counts from the
end (clamped below at 0), a non-negative index is clamped above at `n`. -/
def pySliceIdx (n : Nat) (i : Int) : Nat :=
  if i < 0 then (i + n).toNat else min i.toNat n

/-- Python slicing `s[a:b]` (step 1) on a list of characters. -/
def pySlice (l : List Char) (a b : Int) : List Char :=
  (l.take (pySliceIdx l.length b)).drop (pySliceIdx l.length a)

/-! ## PaginationView: `process_content`

The function below is character-for-character identical in
`src/tools/webtools/web_fetch.py` (lines 120-139) and
`src/agents/web_agent/tools/web_fetch2.py` (lines 216-227), so a single
embedding covers both. -/

/-- The marker returned when `start_index >= full_len`
(f-string at web_fetch.py line 130 / web_fetch2.py line 220). -/
def endMarker (full_len : Int) : String :=
  s!"<system-reminder>End of content. Total length: {full_len}</system-reminder>"

/-- The marker appended when the slice stops before the end of the text
(f-string at web_fetch.py line 137 / web_fetch2.py line 226). -/
def truncMarker (end_index : Int) : String :=
  s!"\n\n<system-reminder>Truncated! Call tool again with start_index={end_index} to continue reading.</system-reminder>"

/-- Embedding of `process_content(markdown_text, start_index, max_length)`.
`if not markdown_text` is the empty-string test; slicing follows Python
semantics including negative indices. -/
def process_content (markdown_text : String) (start_index : Int) (max_length : Int) : String :=
  if markdown_text = "" then "No content found."
  else
    let full_len : Int := (markdown_text.length : Int)
    if start_index ≥ full_len then
      endMarker full_len
    else
      let end_index : Int := min (start_index + max_length) full_len
      let chunk := String.mk (pySlice markdown_text.data start_index end_index)
      if end_index < full_len then
        chunk ++ truncMarker end_index
      else
        chunk


/-! ## SafetyValidator: `is_safe_url`

`is_safe_url` is identical in web_fetch.py (lines 24-39) and
web_fetch2.py (lines 54-66). The stdlib facilities it calls —
`urllib.parse.urlparse(url).hostname` and `socket.gethostbyname` — are
abstracted as an environment: `hostnameOf` returns `none` when the URL
has no hostname, `gethostbyname` returns `none` when resolution raises.
`ipaddress.ip_address` classification is embedded concretely for IPv4. -/

/-- An IPv4 address as four octets. -/
structure IPv4 where
  a : Nat
  b : Nat
  c : Nat
  d : Nat
  deriving DecidableEq, Repr

/-- Python `ipaddress.IPv4Address.is_loopback`: membership in 127.0.0.0/8. -/
def IPv4.is_loopback (ip : IPv4) : Bool :=
  decide (ip.a = 127)

/-- Python `ipaddress.IPv4Address.is_private`: membership in the module's
private-network list (0.0.0.0/8, 10.0.0.0/8, 127.0.0.0/8, 169.254.0.0/16,
172.16.0.0/12, 192.0.0.0/29, 192.0.0.170/31, 192.0.2.0/24, 192.168.0.0/16,
198.18.0.0/15, 198.51.100.0/24, 203.0.113.0/24, 240.0.0.0/4,
255.255.255.255/32). -/
def IPv4.is_private (ip : IPv4) : Bool :=
  decide (ip.a = 0 ∨ ip.a = 10 ∨ ip.a = 127 ∨
    (ip.a = 169 ∧ ip.b = 254) ∨
    (ip.a = 172 ∧ 16 ≤ ip.b ∧ ip.b ≤ 31) ∨
    (ip.a = 192 ∧ ip.b = 0 ∧ ip.c = 0 ∧ ip.d ≤ 7) ∨
    (ip.a = 192 ∧ ip.b = 0 ∧ ip.c = 0 ∧ (ip.d = 170 ∨ ip.d = 171)) ∨
    (ip.a = 192 ∧ ip.b = 0 ∧ ip.c = 2) ∨
    (ip.a = 192 ∧ ip.b = 168) ∨
    (ip.a = 198 ∧ (ip.b = 18 ∨ ip.b = 19)) ∨
    (ip.a = 198 ∧ ip.b = 51 ∧ ip.c = 100) ∨
    (ip.a = 203 ∧ ip.b = 0 ∧ ip.c = 113) ∨
    240 ≤ ip.a)

/-- An RFC1918 private address: 10.0.0.0/8, 172.16.0.0/12 or 192.168.0.0/16.
This is the address class named by the spec; it is a subset of
`IPv4.is_private`. -/
def IPv4.isRFC1918 (ip : IPv4) : Bool :=
  decide (ip.a = 10 ∨ (ip.a = 172 ∧ 16 ≤ ip.b ∧ ip.b ≤ 31) ∨ (ip.a = 192 ∧ ip.b = 168))

/-- Name-resolution environment: `hostnameOf` abstracts
`urlparse(url).hostname` (`none` = missing), `gethostbyname` abstracts DNS
resolution (`none` = the lookup raised). -/
structure NetEnv where
  hostnameOf : String → Option String
  gethostbyname : String → Option IPv4

/-- Embedding of `is_safe_url(url)`: no hostname (or a falsy empty one)
blocks; a resolution failure blocks; a private or loopback address blocks;
everything else is allowed. -/
def is_safe_url (net : NetEnv) (url : String) : Bool :=
  match net.hostnameOf url with
  | none => false
  | some hostname =>
    if hostname = "" then false
    else
      match net.gethostbyname hostname with
      | none => false
      | some ip => if ip.is_private || ip.is_loopback then false else true

/-! ## TypeProber / RetrievalRouter: the probe-and-classify step of
`_crawl_url` in web_fetch2.py (lines 149-176) -/

/-- An awaited Python operation that either returns or raises. -/
inductive Attempt (α : Type) where
  | raise (msg : String)
  | ok (a : α)
  deriving DecidableEq, Repr

/-- The `MIME_TO_EXT` table (web_fetch2.py lines 39-50). -/
def MIME_TO_EXT : List (String × String) :=
  [("application/pdf", ".pdf"),
   ("application/vnd.openxmlformats-officedocument.wordprocessingml.document", ".docx"),
   ("application/msword", ".doc"),
   ("application/vnd.openxmlformats-officedocument.spreadsheetml.sheet", ".xlsx"),
   ("application/vnd.ms-excel", ".xls"),
   ("application/vnd.openxmlformats-officedocument.presentationml.presentation", ".pptx"),
   ("application/vnd.ms-powerpoint", ".ppt"),
   ("text/csv", ".csv"),
   ("application/rtf", ".rtf"),
   ("text/plain", ".txt")]

/-- Response to the HEAD probe: status plus
`resp.headers.get('Content-Type', '')`. -/
structure HeadResp where
  status : Nat
  contentType : String
  deriving DecidableEq, Repr

/-- Content-type normalisation in `_crawl_url` line 161:
`.lower().split(';')[0].strip()`. -/
def normalize_ctype (h : String) : String :=
  pyStrip (pySplitHead ';' (pyLower h))

/-- The probe-and-classify step of `_crawl_url` (web_fetch2.py lines
149-172), returning `(is_document, detected_type)`. A raised HEAD request
leaves both at their defaults; status 403/404/405 falls back to the
crawler; otherwise the content type is looked up in `MIME_TO_EXT` and, if
that misses, the lowercased URL is tested against the four document
suffixes. -/
def crawl_detect (url : String) (head : Attempt HeadResp) : Bool × String :=
  match head with
  | .raise _ => (false, "")
  | .ok resp =>
    if resp.status = 403 ∨ resp.status = 404 ∨ resp.status = 405 then (false, "")
    else
      let ctype := normalize_ctype resp.contentType
      if (MIME_TO_EXT.lookup ctype).isSome then (true, ctype)
      else if [".pdf", ".docx", ".xlsx", ".pptx"].any (fun x => pyEndsWith (pyLower url) x) then
        (true, ctype)
      else (false, ctype)


/-! ## DocumentConverter: `_process_with_markitdown` (web_fetch2.py lines
68-137)

The network, filesystem and MarkItDown effects are oracles; each fallible
awaited operation is an `Attempt`. The temporary file is tracked
explicitly: `doc_try` reports whether it created one (nothing inside the
`try` block deletes it), and `doc_finally` embeds the `finally` block that
removes it. `os.remove` is modelled as succeeding; OS-level removal
failures are swallowed by the source's inner `except: pass` and are out of
scope. -/

/-- Response to `session.get(url)`: status plus
`response.headers.get('Content-Type', '')`. -/
structure GetResp where
  status : Nat
  contentType : String
  deriving DecidableEq, Repr

/-- Oracles for one `_process_with_markitdown` call: the GET request, the
chunked body write, the MarkItDown conversion (each may raise), and
`mimetypes.guess_extension` (stdlib, abstracted). -/
structure DocEnv where
  get : Attempt GetResp
  write : Attempt Unit
  convert : Attempt String
  guess_extension : String → Option String

/-- Content-type normalisation at web_fetch2.py line 84:
`.split(';')[0].strip().lower()`. -/
def header_ctype (h : String) : String :=
  pyLower (pyStrip (pySplitHead ';' h))

/-- The extension priority chain of web_fetch2.py lines 86-95: the
`MIME_TO_EXT` table, then `mimetypes.guess_extension`, then the suffix of
the URL's last path component, then `".tmp"`. -/
def choose_ext (guess : String → Option String) (content_type url : String) : String :=
  let ext1 := MIME_TO_EXT.lookup content_type
  let ext2 := match ext1 with
    | some e => some e
    | none => guess content_type
  let ext3 := match ext2 with
    | some e => some e
    | none =>
      let filename := pySplitHead '?' ((url.data.foldl (fun acc c =>
        if c == '/' then [] else acc ++ [c]) []).asString)
      if filename.data.contains '.' then
        some ("." ++ String.mk (filename.data.reverse.takeWhile (fun c => !(c == '.'))).reverse)
      else none
  match ext3 with
  | some e => e
  | none => ".tmp"


/-- The `try` block of `_process_with_markitdown` (lines 75-127, the inner
`except Exception` included): returns the produced string together with
whether a temporary file was created. A transport error on the GET, a
write error, or a conversion error all surface as the
`<error>MarkItDown failed: ...</error>` string; a non-200 status returns
the download-failure string before any file is created. -/
def doc_try (env : DocEnv) (url : String) (content_type : Option String) : String × Bool :=
  match env.get with
  | .raise e => (s!"<error>MarkItDown failed: {e}</error>", false)
  | .ok response =>
    if response.status ≠ 200 then
      let status := response.status
      (s!"<error>Download failed: HTTP {status}</error>", false)
    else
      let ct := match content_type with
        | some c => if c = "" then header_ctype response.contentType else c
        | none => header_ctype response.contentType
      let _ext := choose_ext env.guess_extension ct url
      match env.write with
      | .raise e => (s!"<error>MarkItDown failed: {e}</error>", true)
      | .ok _ =>
        match env.convert with
        | .raise e => (s!"<error>MarkItDown failed: {e}</error>", true)
        | .ok markdown_text =>
          (s!"# Document Content (Source: {ct})\n\n{markdown_text}", true)

/-- The `finally` block (lines 128-137): when `temp_path` is set, the file
is removed if it still exists. Takes the temp-path flag and whether the
file exists before cleanup; returns whether it exists after. -/
def doc_cleanup (temp_path_set : Bool) (exists0 : Bool) : Bool :=
  if temp_path_set then (if exists0 then false else exists0) else exists0

/-- Result of a `_process_with_markitdown` call: the returned string,
whether a temp file was created during the call, and whether it still
exists when the call returns. -/
structure DocRun where
  output : String
  temp_created : Bool
  temp_exists : Bool
  deriving DecidableEq, Repr

/-- Embedding of `_process_with_markitdown(url, content_type)`: the `try`
body followed by the `finally` cleanup. Inside the `try` block the created
file is never deleted, so it exists before cleanup iff it was created. -/
def _process_with_markitdown (env : DocEnv) (url : String) (content_type : Option String) :
    DocRun :=
  let r := doc_try env url content_type
  { output := r.1, temp_created := r.2, temp_exists := doc_cleanup r.2 r.2 }

/-! ## The two `_crawl_url` bodies and the fetch events they perform -/

/-- The externally observable underlying operations of one fetch. -/
inductive FetchEvent where
  | cacheHit (key : String)
  | headProbe (url : String)
  | download (url : String)
  | render (url : String)
  deriving DecidableEq, Repr

/-- Result of `AsyncWebCrawler.arun`. -/
structure CrawlResult where
  success : Bool
  markdown : String
  error_message : String
  deriving DecidableEq, Repr

/-- Oracles for one `_crawl_url` execution in web_fetch2.py: the HEAD
probe, the document path, and the crawler. -/
structure Crawl2Env where
  head : Attempt HeadResp
  doc : DocEnv
  crawler : Attempt CrawlResult

/-- Embedding of the body of `_crawl_url` in web_fetch2.py (lines 140-213),
without the cache decorator: probe, classify, then dispatch to
`_process_with_markitdown` (which never raises — its `try` converts every
exception into an error string) or to Crawl4AI (where a crawler exception
propagates, and a reported failure becomes the
`<error>Crawl4AI failed: ...</error>` string). Returns the result —
`Except.error` models a raised exception — and the operations performed. -/
def crawl_url2_run (env : Crawl2Env) (url : String) :
    Except String String × List FetchEvent :=
  let d := crawl_detect url env.head
  if d.1 then
    (.ok (_process_with_markitdown env.doc url (some d.2)).output,
     [.headProbe url, .download url])
  else
    match env.crawler with
    | .raise e => (.error e, [.headProbe url, .render url])
    | .ok result =>
      if result.success then (.ok result.markdown, [.headProbe url, .render url])
      else
        let err := result.error_message
        (.ok s!"<error>Crawl4AI failed: {err}</error>", [.headProbe url, .render url])

/-- Embedding of the body of `_crawl_url` in web_fetch.py (lines 46-115),
without the cache decorator: render only; a crawler-reported failure
RAISES `Exception("Crawl failed: " + (error_message or "Unknown error"))`
instead of returning a marker string. -/
def crawl_url1_run (crawler : Attempt CrawlResult) (url : String) :
    Except String String × List FetchEvent :=
  match crawler with
  | .raise e => (.error e, [.render url])
  | .ok result =>
    if result.success then (.ok result.markdown, [.render url])
    else
      let error_msg := if result.error_message = "" then "Unknown error"
        else result.error_message
      (.error s!"Crawl failed: {error_msg}", [.render url])

/-! ## ResultCache

Both `_crawl_url` functions are wrapped by
`@alru_cache(maxsize=32, ttl=600)` from the third-party `async_lru`
package, whose implementation is not part of this repository's sources.
The cache is therefore modelled from the spec (§4.6, §9): entries hold
`(key, value, expiresAt)` in least-recently-used-first order; a hit on an
unexpired entry returns the stored text (and refreshes recency) without
running the producer; a miss runs the producer, stores its value on
success, and stores nothing when it raises; an entry is treated as absent
once `ttl` seconds have passed; capacity pressure evicts from the
least-recently-used end. The parameters `maxsize=32` and `ttl=600` are
taken from the source (web_fetch2.py line 139, web_fetch.py line 45). -/

/-- One resolved cache entry. -/
structure CacheEntry where
  key : String
  value : String
  expiresAt : Nat
  deriving DecidableEq, Repr

/-- Modelled from the spec: drop every entry whose TTL has elapsed
(an entry is live at `now` iff `now < expiresAt`). -/
def purgeExpired (now : Nat) (st : List CacheEntry) : List CacheEntry :=
  st.filter (fun e => decide (now < e.expiresAt))

/-- Modelled from the spec: the stored text for `key`, if a live entry
exists. -/
def cacheFind (now : Nat) (key : String) (st : List CacheEntry) : Option String :=
  ((purgeExpired now st).find? (fun e => e.key == key)).map CacheEntry.value

/-- Modelled from the spec: refresh the recency of `key` by moving its
entry to the most-recently-used end. -/
def cacheTouch (key : String) (st : List CacheEntry) : List CacheEntry :=
  match st.find? (fun e => e.key == key) with
  | none => st
  | some e => st.filter (fun x => !(x.key == key)) ++ [e]

/-- Modelled from the spec: store `value` for `key` with a fresh TTL and
evict from the least-recently-used end while over capacity. -/
def cacheInsert (maxsize ttl now : Nat) (key value : String) (st : List CacheEntry) :
    List CacheEntry :=
  let st' := (purgeExpired now st).filter (fun e => !(e.key == key)) ++
    [{ key := key, value := value, expiresAt := now + ttl }]
  if st'.length > maxsize then st'.drop (st'.length - maxsize) else st'

/-- Modelled from the spec: `getOrFetch(key, producer)` — the behaviour of
one sequential call through the `alru_cache` wrapper. The producer is a
pure pair (result, events); its events are appended only on a miss,
modelling that it is not run on a hit. A producer error is returned to the
caller and nothing is stored. -/
def getOrFetch (maxsize ttl now : Nat) (key : String)
    (producer : Except String String × List FetchEvent) (st : List CacheEntry) :
    Except String String × List CacheEntry × List FetchEvent :=
  match cacheFind now key st with
  | some v => (.ok v, cacheTouch key (purgeExpired now st), [.cacheHit key])
  | none =>
    match producer with
    | (.ok v, evs) => (.ok v, cacheInsert maxsize ttl now key v st, evs)
    | (.error e, evs) => (.error e, purgeExpired now st, evs)

/-! ## The `web_fetch` tool pipelines (web_fetch2.py lines 237-256,
web_fetch.py lines 154-178)

Both tools run the safety check first, then the cached `_crawl_url`, then
`process_content`; a raised exception from the crawl becomes the
`<error>Fetch failed: ...</error>` string. Each call returns the tool
output, the cache state after the call, and the operations performed. -/

/-- The security-block marker string (web_fetch2.py line 250,
web_fetch.py line 167). -/
def securityBlockMsg : String := "<error>Security Block: Private IP access denied.</error>"

/-- Embedding of `web_fetch(url, start_index, max_length)` from
web_fetch2.py: safety check, cached smart crawl, pagination. -/
def web_fetch2 (net : NetEnv) (env : Crawl2Env) (st : List CacheEntry) (now : Nat)
    (url : String) (start_index max_length : Int) :
    String × List CacheEntry × List FetchEvent :=
  if is_safe_url net url = false then (securityBlockMsg, st, [])
  else
    match getOrFetch 32 600 now url (crawl_url2_run env url) st with
    | (.ok content, st', evs) => (process_content content start_index max_length, st', evs)
    | (.error e, st', evs) => (s!"<error>Fetch failed: {e}</error>", st', evs)

/-- Embedding of `web_fetch(url, start_index, max_length)` from
web_fetch.py: safety check, cached page crawl, pagination. -/
def web_fetch1 (net : NetEnv) (crawler : Attempt CrawlResult) (st : List CacheEntry) (now : Nat)
    (url : String) (start_index max_length : Int) :
    String × List CacheEntry × List FetchEvent :=
  if is_safe_url net url = false then (securityBlockMsg, st, [])
  else
    match getOrFetch 32 600 now url (crawl_url1_run crawler url) st with
    | (.ok content, st', evs) => (process_content content start_index max_length, st', evs)
    | (.error e, st', evs) => (s!"<error>Fetch failed: {e}</error>", st', evs)

/-! ## Concrete environments used to instantiate the theorems -/

/-- A resolver environment where every URL resolves to the loopback
address 127.0.0.1. -/
def netLoopback : NetEnv :=
  { hostnameOf := fun _ => some "localhost", gethostbyname := fun _ => some ⟨127, 0, 0, 1⟩ }

/-- A resolver environment where every URL resolves to the public address
93.184.216.34. -/
def netPub : NetEnv :=
  { hostnameOf := fun _ => some "example.com", gethostbyname := fun _ => some ⟨93, 184, 216, 34⟩ }

/-- A document environment where download, write and conversion all
succeed. -/
def docEnvOk : DocEnv :=
  { get := .ok ⟨200, "application/pdf"⟩, write := .ok (), convert := .ok "converted text",
    guess_extension := fun _ => none }

/-- A crawl environment whose probe reports a PDF and whose document
download then fails with HTTP 500. -/
def envDownFail : Crawl2Env :=
  { head := .ok ⟨200, "application/pdf"⟩,
    doc := { get := .ok ⟨500, ""⟩, write := .ok (), convert := .ok "x",
             guess_extension := fun _ => none },
    crawler := .raise "unused" }

/-- A crawl environment where nothing is reachable. -/
def envAllRaise : Crawl2Env :=
  { head := .raise "e",
    doc := { get := .raise "e", write := .raise "e", convert := .raise "e",
             guess_extension := fun _ => none },
    crawler := .raise "e" }

/-- A crawler outcome reporting a failed render. -/
def crawlFail : Attempt CrawlResult := .ok ⟨false, "", "timeout"⟩

/-- The blocking condition named by claim C1: hostname missing, resolution
failure, or a loopback / RFC1918-private resolved address. -/
def claimBlocked (net : NetEnv) (url : String) : Prop :=
  net.hostnameOf url = none ∨
  ∃ h, net.hostnameOf url = some h ∧
    (net.gethostbyname h = none ∨
     ∃ ip, net.gethostbyname h = some ip ∧ (ip.is_loopback = true ∨ ip.isRFC1918 = true))

/-! # Theorems settling the claims -/

/-! ## Pagination claims (C4, C5, C9, C10) -/

/-- Helper: under the pagination claims' hypotheses the text is
non-empty. -/
theorem text_ne_empty_of_lt {text : String} {off : Int}
    (h0 : 0 ≤ off) (h1 : off < (text.length : Int)) : text ≠ "" := by
  intro h
  subst h
  have hz : ((("" : String).length : Nat) : Int) = 0 := rfl
  omega

/-- C9: for the empty text and every offset and maxLength, the pagination
slice returns the fixed string "No content found." — not an end-of-content
marker carrying total length 0. -/
theorem process_content_empty_text (start_index max_length : Int) :
    process_content "" start_index max_length = "No content found." ∧
      "No content found." ≠ endMarker 0 :=
  ⟨rfl, by decide⟩

/-- C5 counterexample: for the empty text (length 0) and offset 0 ≥ 0 =
length, the output is "No content found.", not the end-of-content marker
carrying total length 0 — refuting the claim's "for every text". -/
theorem empty_text_is_not_end_marker :
    process_content "" 0 1 = "No content found." ∧
      process_content "" 0 1 ≠ endMarker 0 :=
  ⟨rfl, by decide⟩

/-- C5 (amended): for every NON-EMPTY text and maxLength > 0, if
offset ≥ length(text) the pagination slice returns exactly the
end-of-content marker carrying the total length and no further text; the
function is pure, so calling it again with the same arguments returns the
same result. -/
theorem offset_past_end_yields_end_marker (text : String) (off maxLen : Int)
    (htext : text ≠ "") (hoff : (text.length : Int) ≤ off) (_hm : 0 < maxLen) :
    process_content text off maxLen = endMarker (text.length : Int) := by
  simp only [process_content]
  rw [if_neg htext, if_pos hoff]

/-- C5 witness: "abc" has length 3 ≤ offset 5, so the end-of-content
marker for total length 3 is returned. -/
theorem offset_past_end_yields_end_marker_witness :
    process_content "abc" 5 2 = endMarker 3 :=
  offset_past_end_yields_end_marker "abc" 5 2 (by decide) (by decide) (by decide)

/-- C4 counterexample: for text "ab", offset 0 and maxLength 5 the slice
reaches the end of the text, and the output is the bare chunk "ab" — no
end-of-content marker is appended, refuting the claim's final clause. -/
theorem slice_reaching_end_has_no_marker :
    process_content "ab" 0 5 = "ab" ∧
      process_content "ab" 0 5 ≠ "ab" ++ endMarker 2 :=
  ⟨rfl, by decide⟩

/-- C4 (amended): for every non-empty text, maxLength > 0 and
0 ≤ offset < length(text), the slice returns
text[offset : min(offset+maxLength, length(text))]; if it stops before
the end a truncation marker naming offset+maxLength is appended; if it
reaches the end the bare chunk is returned WITHOUT any marker (the
end-of-content marker appears only on a later call with
offset ≥ length). -/
theorem pagination_slice_spec (text : String) (off maxLen : Int)
    (h0 : 0 ≤ off) (h1 : off < (text.length : Int)) (_hm : 0 < maxLen) :
    (off + maxLen < (text.length : Int) →
      process_content text off maxLen =
        String.mk (pySlice text.data off (off + maxLen)) ++ truncMarker (off + maxLen)) ∧
    ((text.length : Int) ≤ off + maxLen →
      process_content text off maxLen = String.mk (pySlice text.data off (text.length : Int))) := by
  have htext : text ≠ "" := text_ne_empty_of_lt h0 h1
  constructor
  · intro hlt
    simp only [process_content]
    rw [if_neg htext, if_neg (by omega : ¬ off ≥ (text.length : Int))]
    rw [min_eq_left (le_of_lt hlt), if_pos hlt]
  · intro hge
    simp only [process_content]
    rw [if_neg htext, if_neg (by omega : ¬ off ≥ (text.length : Int))]
    rw [min_eq_right hge, if_neg (lt_irrefl (text.length : Int))]

/-- C4 witness: slicing "abcd" at offset 1 with maxLength 2 returns "bc"
plus the truncation marker naming offset 3. -/
theorem pagination_slice_spec_witness :
    process_content "abcd" 1 2 =
      String.mk (pySlice "abcd".data 1 (1 + 2)) ++ truncMarker (1 + 2) :=
  (pagination_slice_spec "abcd" 1 2 (by decide) (by decide) (by decide)).1 (by decide)

/-- C10 counterexample: for text "ab", offset 0 and maxLength -1 the
output is "a" followed by the truncation marker naming offset -1 — the
chunk DOES contain text of the input (Python's negative slice index counts
from the end), refuting the claim's "chunk containing no text". -/
theorem negative_max_length_leaks_text :
    process_content "ab" 0 (-1) = "a" ++ truncMarker (-1) ∧
      process_content "ab" 0 (-1) ≠ truncMarker (-1) :=
  ⟨rfl, by decide⟩

/-- C10 (amended): for every non-empty text, 0 ≤ offset < length(text) and
maxLength ≤ 0, the output is the Python slice
text[offset : offset+maxLength] followed by a truncation marker whose
advertised next offset offset+maxLength is not greater than the current
offset — so following the advertised offsets never advances — and the
chunk is empty whenever offset+maxLength ≥ 0, but may contain text of the
input when offset+maxLength < 0 (negative-index slice semantics). -/
theorem nonpositive_max_length_never_advances (text : String) (off maxLen : Int)
    (h0 : 0 ≤ off) (h1 : off < (text.length : Int)) (hm : maxLen ≤ 0) :
    process_content text off maxLen =
        String.mk (pySlice text.data off (off + maxLen)) ++ truncMarker (off + maxLen) ∧
      off + maxLen ≤ off ∧
      (0 ≤ off + maxLen → pySlice text.data off (off + maxLen) = []) := by
  have htext : text ≠ "" := text_ne_empty_of_lt h0 h1
  refine ⟨?_, by omega, ?_⟩
  · simp only [process_content]
    rw [if_neg htext, if_neg (by omega : ¬ off ≥ (text.length : Int))]
    rw [min_eq_left (by omega), if_pos (by omega : off + maxLen < (text.length : Int))]
  · intro hnn
    unfold pySlice
    apply List.drop_eq_nil_of_le
    have hle : (off + maxLen).toNat ≤ off.toNat := Int.toNat_le_toNat (by omega)
    simp only [pySliceIdx, if_neg (by omega : ¬ (off + maxLen) < 0),
      if_neg (by omega : ¬ off < 0)]
    have := List.length_take ((off + maxLen).toNat ⊓ text.data.length) text.data
    omega

/-- C10 witness: offset 1, maxLength 0 on "ab" returns the empty chunk and
a marker advertising offset 1 again. -/
theorem nonpositive_max_length_never_advances_witness :
    process_content "ab" 1 0 =
      String.mk (pySlice "ab".data 1 (1 + 0)) ++ truncMarker (1 + 0) :=
  (nonpositive_max_length_never_advances "ab" 1 0 (by decide) (by decide) (by decide)).1

/-! ## Probe classification (C6) -/

/-- C6 counterexample: a URL ending in ".pdf" whose probe succeeds with
Content-Type "text/html" is classified as a Document — the suffix check
fires whenever the declared MIME type is not in the document table —
refuting the claim's "a URL with Content-Type text/html takes the Page
path". -/
theorem html_content_type_routed_to_document :
    (crawl_detect "http://example.com/report.pdf" (.ok ⟨200, "text/html"⟩)).1 = true := rfl

/-- C6 (amended): a probe transport error or probe status 403/404/405
classifies as Page; on any other successful probe the classification is
Document iff the normalised declared content type is in the document MIME
table OR the lowercased full URL string ends in .pdf/.docx/.xlsx/.pptx —
the suffix is consulted whenever the MIME lookup misses, not only when the
type is absent or generic, so Content-Type text/html takes the Page path
only when the URL lacks those suffixes. -/
theorem crawl_detect_spec (url m : String) (r : HeadResp) :
    (crawl_detect url (.raise m)).1 = false ∧
    (r.status = 403 ∨ r.status = 404 ∨ r.status = 405 →
      (crawl_detect url (.ok r)).1 = false) ∧
    (¬(r.status = 403 ∨ r.status = 404 ∨ r.status = 405) →
      ((crawl_detect url (.ok r)).1 = true ↔
        (MIME_TO_EXT.lookup (normalize_ctype r.contentType)).isSome = true ∨
          pyEndsWith (pyLower url) ".pdf" = true ∨
          pyEndsWith (pyLower url) ".docx" = true ∨
          pyEndsWith (pyLower url) ".xlsx" = true ∨
          pyEndsWith (pyLower url) ".pptx" = true)) := by
  refine ⟨rfl, fun h => ?_, fun h => ?_⟩
  · simp only [crawl_detect, if_pos h]
  · simp only [crawl_detect, if_neg h]
    by_cases hmime : (MIME_TO_EXT.lookup (normalize_ctype r.contentType)).isSome = true
    · simp [hmime]
    · by_cases hsuf : ([".pdf", ".docx", ".xlsx", ".pptx"].any
          (fun x => pyEndsWith (pyLower url) x)) = true
      · have hsuf' := hsuf
        simp only [List.any_cons, List.any_nil, Bool.or_eq_true, Bool.or_false] at hsuf'
        simp only [if_neg hmime, if_pos hsuf]
        simp only [hmime, true_iff, false_or]
        tauto
      · have hsuf' := hsuf
        simp only [List.any_cons, List.any_nil, Bool.or_eq_true, Bool.or_false] at hsuf'
        simp only [if_neg hmime, if_neg hsuf]
        constructor
        · intro hfalse
          exact absurd hfalse (by simp)
        · intro hor
          exfalso
          tauto

/-- C6 witness: a PDF content type with probe status 200 is classified as
Document. -/
theorem crawl_detect_spec_witness :
    (crawl_detect "http://a.com/x" (.ok ⟨200, "application/pdf"⟩)).1 = true :=
  ((crawl_detect_spec "http://a.com/x" "e" ⟨200, "application/pdf"⟩).2.2
    (by decide)).mpr (Or.inl (by decide))

/-! ## DocumentConverter cleanup (C7) -/

/-- Helper: the `finally` cleanup leaves no file when the exists-flag and
the path-set flag coincide. -/
theorem doc_cleanup_self (b : Bool) : doc_cleanup b b = false := by
  cases b <;> rfl

/-- C7: for every oracle environment — covering transport error on the
GET, a non-200 download, a write failure, a conversion-backend error, an
unexpected exception in those steps, and successful conversion — the
temporary file no longer exists when `_process_with_markitdown` returns;
and the model is not vacuous: whenever the GET succeeds with HTTP 200 a
temporary file really is created during the call. -/
theorem markitdown_temp_file_removed (env : DocEnv) (url : String) (ct : Option String) :
    (_process_with_markitdown env url ct).temp_exists = false ∧
    (∀ resp, env.get = .ok resp → resp.status = 200 →
      (_process_with_markitdown env url ct).temp_created = true) := by
  constructor
  · exact doc_cleanup_self (doc_try env url ct).2
  · intro resp hget h200
    show (doc_try env url ct).2 = true
    simp only [doc_try, hget, h200]
    cases env.write with
    | raise e => rfl
    | ok u =>
      cases env.convert with
      | raise e => rfl
      | ok t => rfl

/-- C7 witness: with a successful download and conversion, the call
creates a temporary file and it is gone on return. -/
theorem markitdown_temp_file_removed_witness :
    (_process_with_markitdown docEnvOk "http://x/a.pdf" (some "application/pdf")).temp_exists
        = false ∧
      (_process_with_markitdown docEnvOk "http://x/a.pdf" (some "application/pdf")).temp_created
        = true :=
  ⟨(markitdown_temp_file_removed docEnvOk "http://x/a.pdf" (some "application/pdf")).1,
   (markitdown_temp_file_removed docEnvOk "http://x/a.pdf" (some "application/pdf")).2
     ⟨200, "application/pdf"⟩ rfl rfl⟩

/-! ## SafetyValidator blocking (C1) -/

/-- Helper: every RFC1918 address is in Python's private list. -/
theorem isRFC1918_is_private (ip : IPv4) :
    ip.isRFC1918 = true → ip.is_private = true := by
  simp only [IPv4.isRFC1918, IPv4.is_private, decide_eq_true_eq]
  tauto

/-- Helper: the claim's blocking condition makes `is_safe_url` return
false. -/
theorem claimBlocked_not_safe (net : NetEnv) (url : String) (h : claimBlocked net url) :
    is_safe_url net url = false := by
  rcases h with hnone | ⟨host, hhost, hrest⟩
  · simp only [is_safe_url, hnone]
  · rcases hrest with hres | ⟨ip, hip, hcls⟩
    · simp only [is_safe_url, hhost, hres, ite_self]
    · have hblock : (ip.is_private || ip.is_loopback) = true := by
        rcases hcls with hl | hp
        · simp [hl]
        · simp [isRFC1918_is_private ip hp]
      simp only [is_safe_url, hhost, hip, hblock, if_true, ite_self]

/-- C1: whenever the URL's hostname is missing, fails to resolve, or
resolves to a loopback or RFC1918-private address, `web_fetch` returns the
security-block marker string, performs no probe, download or render and no
cache access, and leaves the cache untouched — on every call, whatever the
cache state, because the check precedes the cached crawl. -/
theorem web_fetch_blocks_private_urls (net : NetEnv) (env : Crawl2Env)
    (st : List CacheEntry) (now : Nat) (url : String) (si ml : Int)
    (h : claimBlocked net url) :
    web_fetch2 net env st now url si ml = (securityBlockMsg, st, []) := by
  unfold web_fetch2
  rw [claimBlocked_not_safe net url h]
  rfl

/-- C1 witness: a URL resolving to the loopback address 127.0.0.1 is
blocked with no operation performed, even with a non-empty cache. -/
theorem web_fetch_blocks_private_urls_witness :
    web_fetch2 netLoopback envAllRaise [⟨"k", "v", 600⟩] 0 "http://localhost/admin" 0 6000 =
      (securityBlockMsg, [⟨"k", "v", 600⟩], []) :=
  web_fetch_blocks_private_urls netLoopback envAllRaise [⟨"k", "v", 600⟩] 0
    "http://localhost/admin" 0 6000
    (Or.inr ⟨"localhost", rfl, Or.inr ⟨⟨127, 0, 0, 1⟩, rfl, Or.inl rfl⟩⟩)

/-! ## Cache behaviour (C2, C8) -/

/-- Helper: a key with no live entry still has no live entry after the
purge performed by a failed call. -/
theorem cacheFind_purge_none (now now' : Nat) (url : String) (st : List CacheEntry)
    (h : cacheFind now url st = none) :
    cacheFind now' url (purgeExpired now st) = none := by
  unfold cacheFind at h ⊢
  rw [Option.map_eq_none'] at h ⊢
  rw [List.find?_eq_none] at h ⊢
  intro x hx
  exact h x (List.mem_of_mem_filter hx)

/-- Helper: a key whose every entry has expired has no live entry. -/
theorem cacheFind_none_of_expired (now : Nat) (key : String) (st : List CacheEntry)
    (hexp : ∀ e ∈ st, e.key = key → e.expiresAt ≤ now) :
    cacheFind now key st = none := by
  unfold cacheFind
  rw [Option.map_eq_none', List.find?_eq_none]
  intro e he hkey
  simp only [purgeExpired, List.mem_filter, decide_eq_true_eq] at he
  have h3 : e.key = key := by simpa using hkey
  have := hexp e he.1 h3
  omega

/-- Helper: insertion never leaves the cache above its capacity. -/
theorem cacheInsert_length_le (maxsize ttl now : Nat) (key value : String)
    (st : List CacheEntry) :
    (cacheInsert maxsize ttl now key value st).length ≤ maxsize := by
  simp only [cacheInsert]
  split
  next h => rw [List.length_drop]; omega
  next h => omega

/-- Helper: refreshing recency does not grow the cache. -/
theorem cacheTouch_length_le (key : String) (l : List CacheEntry) :
    (cacheTouch key l).length ≤ l.length := by
  unfold cacheTouch
  split
  · exact Nat.le_refl _
  next e hf =>
    have hmem : e ∈ l := List.mem_of_find?_eq_some hf
    have hpred := List.find?_some hf
    have hlt : (l.filter (fun x => !(x.key == key))).length < l.length := by
      apply List.length_filter_lt_length_iff_exists.mpr
      exact ⟨e, hmem, by simp [hpred]⟩
    simp only [List.length_append, List.length_singleton]
    omega

/-- Helper: a producer that raises yields its error, stores nothing and
performs its events. -/
theorem getOrFetch_error (maxsize ttl now : Nat) (key : String)
    (producer : Except String String × List FetchEvent) (st : List CacheEntry) (e : String)
    (hp : producer.1 = Except.error e) (hmiss : cacheFind now key st = none) :
    getOrFetch maxsize ttl now key producer st =
      (Except.error e, purgeExpired now st, producer.2) := by
  rcases producer with ⟨r, evs⟩
  simp only at hp
  subst hp
  simp only [getOrFetch, hmiss]

/-- Helper: the page-only crawl body always performs exactly one render
attempt. -/
theorem crawl_url1_events (c : Attempt CrawlResult) (url : String) :
    (crawl_url1_run c url).2 = [FetchEvent.render url] := by
  cases c with
  | raise e => rfl
  | ok r =>
    simp only [crawl_url1_run]
    split <;> rfl

/-- C2 counterexample: in web_fetch2.py a download failure (HTTP 500 on a
probed PDF) is returned as an error-marker STRING, which the cache stores
like any value: the first call performs the probe and the download, and
the second call for the same URL within the TTL window returns the failure
text from the cache and performs no underlying operation — refuting "a
failed fetch is never stored; the next call re-attempts". -/
theorem failed_download_served_from_cache :
    (web_fetch2 netPub envDownFail [] 0 "http://example.com/report.pdf" 0 6000).2.2 =
      [FetchEvent.headProbe "http://example.com/report.pdf",
       FetchEvent.download "http://example.com/report.pdf"] ∧
    (web_fetch2 netPub envDownFail
        (web_fetch2 netPub envDownFail [] 0 "http://example.com/report.pdf" 0 6000).2.1
        10 "http://example.com/report.pdf" 0 6000).1 =
      "<error>Download failed: HTTP 500</error>" ∧
    (web_fetch2 netPub envDownFail
        (web_fetch2 netPub envDownFail [] 0 "http://example.com/report.pdf" 0 6000).2.1
        10 "http://example.com/report.pdf" 0 6000).2.2 =
      [FetchEvent.cacheHit "http://example.com/report.pdf"] :=
  ⟨rfl, rfl, rfl⟩

/-- C2 (amended): in the page-only tool (web_fetch.py) a failed crawl
RAISES, the error is not stored as a cache entry, and the next call for
the same key re-attempts the render; in the smart-routing tool
(web_fetch2.py) download/conversion/render failures are returned as
error-marker strings and are cached within the TTL window like successes
(see the counterexample). -/
theorem raised_crawl_error_not_cached (net : NetEnv) (crawler crawler' : Attempt CrawlResult)
    (st : List CacheEntry) (now now' : Nat) (url : String) (si ml : Int)
    (hsafe : is_safe_url net url = true)
    (hfail : ∃ e, (crawl_url1_run crawler url).1 = Except.error e)
    (hmiss : cacheFind now url st = none) :
    cacheFind now' url (web_fetch1 net crawler st now url si ml).2.1 = none ∧
    FetchEvent.render url ∈
      (web_fetch1 net crawler'
        (web_fetch1 net crawler st now url si ml).2.1 now' url si ml).2.2 := by
  obtain ⟨e, he⟩ := hfail
  have h1 : web_fetch1 net crawler st now url si ml =
      (s!"<error>Fetch failed: {e}</error>", purgeExpired now st,
        (crawl_url1_run crawler url).2) := by
    simp only [web_fetch1, hsafe]
    rw [if_neg (by simp : ¬ (true = false))]
    rw [getOrFetch_error 32 600 now url (crawl_url1_run crawler url) st e he hmiss]
  have hmiss' : cacheFind now' url (purgeExpired now st) = none :=
    cacheFind_purge_none now now' url st hmiss
  refine ⟨?_, ?_⟩
  · rw [h1]
    exact hmiss'
  · rw [h1]
    simp only [web_fetch1, hsafe]
    rw [if_neg (by simp : ¬ (true = false))]
    rcases hp : crawl_url1_run crawler' url with ⟨r, evs⟩
    have hevs : evs = [FetchEvent.render url] := by
      have h2 := crawl_url1_events crawler' url
      rw [hp] at h2
      exact h2
    simp only [getOrFetch, hmiss', hp]
    cases r with
    | error e' => simp [hevs]
    | ok v => simp [hevs]

/-- C2 witness: a failed render on an empty cache stores nothing, and the
follow-up call renders again. -/
theorem raised_crawl_error_not_cached_witness :
    cacheFind 5 "http://example.com/"
        (web_fetch1 netPub crawlFail [] 0 "http://example.com/" 0 6000).2.1 = none ∧
    FetchEvent.render "http://example.com/" ∈
      (web_fetch1 netPub crawlFail
        (web_fetch1 netPub crawlFail [] 0 "http://example.com/" 0 6000).2.1
        5 "http://example.com/" 0 6000).2.2 :=
  raised_crawl_error_not_cached netPub crawlFail crawlFail [] 0 5 "http://example.com/" 0 6000
    (by decide) ⟨"Crawl failed: timeout", rfl⟩ rfl

/-- C8: (modelled-from-spec cache, parameters maxsize=32 / ttl=600 from
the source) once every entry for a key is older than the TTL, a call for
that key returns the producer's fresh result and performs the producer's
underlying operations — the stale value is never reused — and, for any
call whatsoever, a cache within its 32-entry capacity stays within it,
evictions discarding from the least-recently-used end. -/
theorem cache_ttl_expiry_and_capacity (st : List CacheEntry) (now : Nat) (key : String)
    (producer : Except String String × List FetchEvent)
    (hexp : ∀ e ∈ st, e.key = key → e.expiresAt ≤ now) :
    (getOrFetch 32 600 now key producer st).1 = producer.1 ∧
    (getOrFetch 32 600 now key producer st).2.2 = producer.2 ∧
    (∀ (st2 : List CacheEntry) (now2 : Nat) (key2 : String)
        (p2 : Except String String × List FetchEvent),
      st2.length ≤ 32 → (getOrFetch 32 600 now2 key2 p2 st2).2.1.length ≤ 32) := by
  have hmiss := cacheFind_none_of_expired now key st hexp
  refine ⟨?_, ?_, ?_⟩
  · simp only [getOrFetch, hmiss]
    rcases producer with ⟨r, evs⟩
    cases r <;> rfl
  · simp only [getOrFetch, hmiss]
    rcases producer with ⟨r, evs⟩
    cases r <;> rfl
  · intro st2 now2 key2 p2 hcap
    rcases hfind : cacheFind now2 key2 st2 with _ | v
    · simp only [getOrFetch, hfind]
      rcases p2 with ⟨r, evs⟩
      cases r with
      | error e =>
        exact Nat.le_trans (List.length_filter_le _ st2) hcap
      | ok w =>
        exact cacheInsert_length_le 32 600 now2 key2 w st2
    · simp only [getOrFetch, hfind]
      have ht := cacheTouch_length_le key2 (purgeExpired now2 st2)
      have hpu : (purgeExpired now2 st2).length ≤ st2.length :=
        List.length_filter_le _ st2
      omega

/-- C8 witness: an entry stored with expiry 5 is stale at time 700; the
producer runs and its render is performed. -/
theorem cache_ttl_expiry_and_capacity_witness :
    (getOrFetch 32 600 700 "k" (Except.ok "w", [FetchEvent.render "k"])
        [⟨"k", "v", 5⟩]).2.2 = [FetchEvent.render "k"] :=
  (cache_ttl_expiry_and_capacity [⟨"k", "v", 5⟩] 700 "k"
    (Except.ok "w", [FetchEvent.render "k"]) (by decide)).2.1

end AgentHub
